import Mathlib

/-!
Verification of the behavioural claims about the `hello-world` sample
repository: a grab-bag of devcontainer templates, LangChain/LangGraph
tutorial material, a WebSocket chat demo, and project-scaffolding shell
scripts.

The embedding below models, directly from the repository's files:
* the `@lru_cache(maxsize=1)` singleton constructor `get_chat_agent` and
  its cache-clear helper (code snippets in
  `fastapi-langgraph-chat-sample/docs/CONCURRENCY_DESIGN.md`);
* the `POST /api/chat` endpoint contract (`README.md`; the route
  implementation itself is not among the source files, so it is modelled
  from the spec);
* the scaffolding script `scripts/create-python-project.sh`;
* the devcontainer setup script (the third document of
  `unnamed/part_001`) and `vscode-devcontainer-python-error/scripts/init-db.sh`
  as transformers of an abstract filesystem state;
* the WebSocket chat client `unnamed/part_003` (its `ws.onmessage`
  handler and `sendMessage` function) and the `{status, response}` frame
  format of the server it talks to;
* the `ChatAgent` LLM-client configuration (rate limiter, retries) and the
  `_generate_response` error path, from the snippets in
  `CONCURRENCY_DESIGN.md`.

Stateful shell scripts and the mutable browser UI are embedded as pure
functions on explicit state records; instance identity is modelled by
giving each constructed `ChatAgent` a fresh natural-number id.
-/

/-! Section: the `@lru_cache(maxsize=1)` singleton constructor

`CONCURRENCY_DESIGN.md` lines 100-107:

  from functools import lru_cache

  @lru_cache(maxsize=1)
  def get_chat_agent() -> ChatAgent:
      logger.info(...)
      return ChatAgent()

and lines 179-181:

  def clear_chat_agent_cache() -> None:
      get_chat_agent.cache_clear()

A `ChatAgent` instance is identified by the index of its construction:
`nextId` counts constructions performed so far, and `cached` holds the id
of the instance currently stored in the lru cache, if any. -/

structure AgentCacheState where
  cached : Option Nat
  nextId : Nat
deriving Repr, DecidableEq

/-- Process start: nothing cached, no instance constructed yet. -/
def initialAgentCacheState : AgentCacheState := ⟨none, 0⟩

/-- One no-argument call of the `@lru_cache(maxsize=1)`-wrapped
`get_chat_agent`: a cache hit returns the cached instance unchanged; a
cache miss constructs a fresh `ChatAgent` (the next id), caches it and
returns it. -/
def get_chat_agent : AgentCacheState → Nat × AgentCacheState
  | ⟨some a, n⟩ => (a, ⟨some a, n⟩)
  | ⟨none, n⟩ => (n, ⟨some n, n + 1⟩)

/-- The cache-clear helper `clear_chat_agent_cache` invokes `get_chat_agent.cache_clear()`: the
cached entry is dropped; instances already constructed are not un-made. -/
def clear_chat_agent_cache (s : AgentCacheState) : AgentCacheState :=
  ⟨none, s.nextId⟩

/-- Well-formedness: a cached instance was actually constructed, i.e. its
id is below the construction counter.  Holds for every state reachable
from `initialAgentCacheState`. -/
def AgentCacheState.WF (s : AgentCacheState) : Prop :=
  match s.cached with
  | none => True
  | some a => a < s.nextId

/-- Iterated invocation: `runGets n s` performs `n + 1` successive `get_chat_agent` calls from
state `s` and yields the value returned by the last call together with
the final state. -/
def runGets : Nat → AgentCacheState → Nat × AgentCacheState
  | 0, s => get_chat_agent s
  | n + 1, s => runGets n (get_chat_agent s).2

/-- A schedule of concurrent request-handling tasks: each list element is
the id of the task that performs the next (atomic, GIL-serialised)
`get_chat_agent` call.  Returns the list of (task, instance returned)
pairs in execution order, with the final cache state. -/
def runSchedule : List Nat → AgentCacheState → List (Nat × Nat) × AgentCacheState
  | [], s => ([], s)
  | t :: ts, s =>
    let r := get_chat_agent s
    let rest := runSchedule ts r.2
    ((t, r.1) :: rest.1, rest.2)

/-! Section: a minimal JSON value model, shared by the HTTP and WebSocket
interfaces. -/

inductive Json where
  | str (s : String)
  | num (n : Nat)
  | obj (fields : List (String × Json))
deriving Repr

/-- The field names of a JSON object, in order (empty for non-objects). -/
def Json.keys : Json → List String
  | .obj fs => fs.map Prod.fst
  | _ => []

/-! Section: the `POST /api/chat` endpoint (fastapi-langgraph-chat-sample)

`README.md` lines 111-136 document the request body
`{message, conversation_id?, context?}` and the response body
`{response, conversation_id, timestamp, metadata}` with
`metadata = {step_count, context}`. -/

structure ChatRequest where
  message : String
  conversation_id : Option String
  context : Option Json
deriving Repr

structure ChatResponse where
  response : String
  conversation_id : String
  timestamp : String
  metadata : Json
deriving Repr

/-- Serialisation of a `ChatResponse`: a JSON object with exactly the four
documented fields, in the README's order. -/
def ChatResponse.toJson (r : ChatResponse) : Json :=
  Json.obj
    [ ("response", Json.str r.response)
    , ("conversation_id", Json.str r.conversation_id)
    , ("timestamp", Json.str r.timestamp)
    , ("metadata", r.metadata) ]

/-- Modelled from the spec: the route implementation (`routes.py`) is not
among the source files; only its contract is, in `README.md` lines
111-136 and spec section 6 ("a direct passthrough to the underlying agent
call") and section 8 ("given a message and no conversation id, returns a
freshly generated conversation id; given an existing conversation id, it
returns the same id").  `freshId` stands for the UUID generated for this
request, `now` for the request's timestamp, `agentReply` for the
underlying agent call. -/
def chatEndpoint (freshId now : String) (agentReply : String → String)
    (req : ChatRequest) : ChatResponse :=
  { response := agentReply req.message
  , conversation_id := req.conversation_id.getD freshId
  , timestamp := now
  , metadata := Json.obj
      [ ("step_count", Json.num 1)
      , ("context", req.context.getD (Json.obj [])) ] }

/-! Section: the scaffolding script `scripts/create-python-project.sh`

  PROJECT_NAME=$1
  if [ -z "$PROJECT_NAME" ]; then echo "Usage: $0 <project_name>"; exit 1; fi
  mkdir -p "$PROJECT_NAME"/{.vscode,src/$PROJECT_NAME,tests}
  cd "$PROJECT_NAME"
  python3 -m venv .venv
  touch src/$PROJECT_NAME/__init__.py
  cat ... > src/$PROJECT_NAME/main.py
  cat ... > tests/test_dummy.py
  cat ... > .gitignore
  touch requirements.txt
  cat ... > pyproject.toml
  cat ... > .vscode/settings.json -/

inductive ScaffoldResult where
  | usageError (message : String) (exitCode : Nat)
  | created (files : List String)
deriving Repr, DecidableEq

/-- The script's exit status: the code of the `exit 1` on the usage path,
`0` on the success path. -/
def ScaffoldResult.exitStatus : ScaffoldResult → Nat
  | .usageError _ c => c
  | .created _ => 0

/-- The files the script writes inside the new project directory, as
relative paths, in the order the script creates them. -/
def projectFiles (name : String) : List String :=
  [ ".venv"
  , "src/" ++ name ++ "/__init__.py"
  , "src/" ++ name ++ "/main.py"
  , "tests/test_dummy.py"
  , ".gitignore"
  , "requirements.txt"
  , "pyproject.toml"
  , ".vscode/settings.json" ]

/-- The usage line printed when `$1` is missing or empty (`$0` rendered as
the script's name). -/
def scaffoldUsageMessage : String :=
  "Usage: create-python-project.sh <project_name>"

/-- The scaffolding script on its positional argument: the `-z` test
rejects a missing or empty argument with the usage message and exit code
1; otherwise the fixed file tree is produced. -/
def create_python_project : Option String → ScaffoldResult
  | none => .usageError scaffoldUsageMessage 1
  | some name =>
    if name = "" then .usageError scaffoldUsageMessage 1
    else .created (projectFiles name)

/-! Section: devcontainer scripts as filesystem-state transformers

`DevEnvState` abstracts the pieces of filesystem state the two scripts
touch: the `.env` file's content (if the file exists), the number of
alembic revision files in `migrations/versions`, whether migrations were
applied, dependencies synced, pre-commit hooks installed. -/

structure DevEnvState where
  env : Option String
  migrationRevisions : Nat
  migrationsApplied : Bool
  depsSynced : Bool
  precommitInstalled : Bool
deriving Repr, DecidableEq

/-- Message printed by the setup script's `.env` check when `.env` is
absent: it claims the file was created. -/
def envCreatedMessage : String :=
  ".envファイルが作成されました。必要に応じて設定を変更してください。"

/-- Message printed by the setup script's `.env` check when `.env`
already exists. -/
def envExistsMessage : String :=
  ".envファイルは既に存在します。"

/-- The devcontainer setup script (third document of `unnamed/part_001`):
`uv sync --dev --no-build-isolation`, `chmod +x scripts/*.sh`, then

  if [ ! -f .env ]; then
      echo ".envファイルが作成されました。..."
  else
      echo ".envファイルは既に存在します。"
  fi

Both branches only `echo`; neither writes to `.env`.  Returns the new
state and the message printed by the check. -/
def setupScript (s : DevEnvState) : DevEnvState × String :=
  ( { s with depsSynced := true }
  , if s.env.isSome then envExistsMessage else envCreatedMessage )

/-- The database init script `vscode-devcontainer-python-error/scripts/init-db.sh`: after waiting
for PostgreSQL, it runs, unconditionally,

  uv run alembic revision --autogenerate -m "Initial migration"
  uv run alembic upgrade head
  uv run pre-commit install

`alembic revision` writes a new revision file on every invocation, so the
revision count always grows by one. -/
def initDbScript (s : DevEnvState) : DevEnvState :=
  { s with
    migrationRevisions := s.migrationRevisions + 1
  , migrationsApplied := true
  , precommitInstalled := true }

/-! Section: the WebSocket chat demo

Server side (modelled from the spec, see `wsServerFrame`): every processed
message yields a `{status, response}` frame.  Client side
(`unnamed/part_003`, `chat.js`): `ws.onmessage` branches on
`response.status === 'success'`; `sendMessage` trims the input, sends
`JSON.stringify({ message })` when non-empty, and clears the field. -/

structure WsFrame where
  status : String
  response : String
deriving Repr, DecidableEq

/-- Serialisation of a frame: a JSON object with exactly the two fields
`status` and `response`. -/
def WsFrame.toJson (f : WsFrame) : Json :=
  Json.obj [ ("status", Json.str f.status), ("response", Json.str f.response) ]

/-- Modelled from the spec: the WebSocket server handler (`app/main.py` of
the chatbot project) is not among the source files; spec section 6 states
it emits `{status, response}` frames — success frames carrying the agent's
reply, error frames carrying the error text (consistent with the client's
handling in `chat.js` lines 24-38). -/
def wsServerFrame (agent : String → Except String String) (msg : String) : WsFrame :=
  match agent msg with
  | .ok reply => ⟨"success", reply⟩
  | .error e => ⟨"error", e⟩

/-- What the client does with a received frame: show the bot's reply, or
show the fixed apology and log the server's error text to the console. -/
inductive ClientAction where
  | showBotMessage (text : String)
  | showError (consoleText : String)
deriving Repr, DecidableEq

/-- The receive handler `ws.onmessage` (`chat.js` lines 24-38): `status === 'success'` shows
`response.response` as a bot message; every other status value is the
error case. -/
def ws_onmessage (f : WsFrame) : ClientAction :=
  if f.status = "success" then ClientAction.showBotMessage f.response
  else ClientAction.showError f.response

/-- Whether the client handled the frame as the success case. -/
def ClientAction.isSuccess : ClientAction → Bool
  | .showBotMessage _ => true
  | .showError _ => false

/-- Whitespace for JavaScript's `String.prototype.trim`: tab, LF, VT, FF,
CR, space, NBSP (the code points exercised by chat messages). -/
def jsIsWhitespace (c : Char) : Bool :=
  c = ' ' || c = '\t' || c = '\n' || c = '\x0b' || c = '\x0c' || c = '\r' ||
    c = '\u00A0'

/-- JavaScript `String.prototype.trim`: drop whitespace from both ends. -/
def jsTrim (s : String) : String :=
  ⟨((s.data.dropWhile jsIsWhitespace).reverse.dropWhile jsIsWhitespace).reverse⟩

/-- The chat UI state touched by `sendMessage`: the input field's value,
the frames sent over the socket so far (in order), the user messages added
to the chat pane, and whether the typing indicator is shown. -/
structure ChatUiState where
  inputValue : String
  sentFrames : List Json
  userMessages : List String
  typingShown : Bool
deriving Repr

/-- The send operation `sendMessage` (`chat.js` lines 70-86):

  const message = userInput.value.trim();
  if (message) {
      addUserMessage(message);
      ws.send(JSON.stringify({ message }));
      userInput.value = '';
      showTypingIndicator();
  }

A non-empty trimmed message is shown, sent as the one-field object
`{ message }`, and the input is cleared; otherwise nothing happens. -/
def sendMessage (st : ChatUiState) : ChatUiState :=
  let message := jsTrim st.inputValue
  if message ≠ "" then
    { inputValue := ""
    , sentFrames := st.sentFrames ++ [Json.obj [("message", Json.str message)]]
    , userMessages := st.userMessages ++ [message]
    , typingShown := true }
  else st

/-! Section: the `ChatAgent` LLM-client configuration and error path

`CONCURRENCY_DESIGN.md` lines 129-147 (`ChatAgent.__init__`):

  rate_limiter = InMemoryRateLimiter(
      requests_per_second=10, check_every_n_seconds=0.1, max_bucket_size=10)
  self.llm = ChatOpenAI(model="gpt-3.5-turbo", temperature=0.7,
      api_key=..., rate_limiter=rate_limiter, max_retries=2)

and lines 116-125 (`_generate_response`): one `await self.llm.ainvoke(...)`
inside `try`, with `logger.error(...)` and a re-raise on exception. -/

structure InMemoryRateLimiterConfig where
  requests_per_second : ℚ
  check_every_n_seconds : ℚ
  max_bucket_size : ℚ
deriving DecidableEq

structure ChatOpenAIConfig where
  model : String
  temperature : ℚ
  rate_limiter : Option InMemoryRateLimiterConfig
  max_retries : Nat
deriving DecidableEq

/-- The third-party token-bucket limiter as configured in
`ChatAgent.__init__`. -/
def chatAgentRateLimiter : InMemoryRateLimiterConfig :=
  { requests_per_second := 10
  , check_every_n_seconds := 1 / 10
  , max_bucket_size := 10 }

/-- The full set of options `ChatAgent.__init__` passes to the `ChatOpenAI`
constructor. -/
def chatAgentLLMConfig : ChatOpenAIConfig :=
  { model := "gpt-3.5-turbo"
  , temperature := 7 / 10
  , rate_limiter := some chatAgentRateLimiter
  , max_retries := 2 }

/-- Outcome of the single third-party LLM call `self.llm.ainvoke(...)`. -/
inductive LlmOutcome where
  | ok (text : String)
  | err (e : String)
deriving Repr, DecidableEq

/-- Result of `_generate_response`: the value or the propagated exception,
the log records it emitted, and how many times it invoked the LLM client. -/
structure GenResult where
  result : Except String String
  logs : List String
  llmCalls : Nat
deriving Repr

/-- The response generator `_generate_response` (`CONCURRENCY_DESIGN.md` lines 116-125): exactly
one `ainvoke`; an exception is logged (`logger.error("LLM呼び出しエラー: %r", e)`)
and re-raised — no retry, no fallback. -/
def generate_response (llm : LlmOutcome) : GenResult :=
  match llm with
  | .ok t => ⟨.ok t, [], 1⟩
  | .err e => ⟨.error e, ["LLM呼び出しエラー: " ++ e], 1⟩

/-- Modelled from the spec: the HTTP error-conversion layer (`routes.py`)
is not among the source files; spec section 7 states exceptions from the
LLM client are logged and converted to an HTTP error response at the
shallowest handling layer.  Returns the HTTP status code paired with the
response body text. -/
def httpChatLayer (llm : LlmOutcome) : Nat × String :=
  match (generate_response llm).result with
  | .ok t => (200, t)
  | .error e => (500, e)

/-- Modelled from the spec: the WebSocket error-conversion layer is not
among the source files; spec sections 6 and 7 state exceptions are
converted to an error frame (a `{status, response}` frame whose status is
not the success value, consistent with `chat.js` lines 32-37). -/
def wsChatLayer (llm : LlmOutcome) : WsFrame :=
  match (generate_response llm).result with
  | .ok t => ⟨"success", t⟩
  | .error e => ⟨"error", e⟩

/-! Section: helper lemmas about the lru-cache model. -/

/-- With an instance already cached, any number of further calls keeps
returning that instance and leaves the state unchanged. -/
theorem runGets_cached (n a m : Nat) :
    runGets n ⟨some a, m⟩ = (a, ⟨some a, m⟩) := by
  induction n with
  | zero => rfl
  | succ n ih => simpa [runGets, get_chat_agent] using ih

/-- Every later call returns the same instance as the first call. -/
theorem runGets_eq_get (n : Nat) (s : AgentCacheState) :
    (runGets n s).1 = (get_chat_agent s).1 := by
  cases n with
  | zero => rfl
  | succ n =>
    rcases s with ⟨_ | a, m⟩ <;>
      simp [runGets, get_chat_agent, runGets_cached]

/-- With an instance already cached, every task of a schedule receives
that instance and the state never changes. -/
theorem runSchedule_cached (ts : List Nat) (a m : Nat) :
    runSchedule ts ⟨some a, m⟩ = (ts.map fun t => (t, a), ⟨some a, m⟩) := by
  induction ts with
  | nil => rfl
  | cons t ts ih => simp [runSchedule, get_chat_agent, ih]

/-! Section: the claim theorems. -/

/-- Claim C1: for the `@lru_cache(maxsize=1)`-wrapped `get_chat_agent`,
every pair of no-argument invocations from a common (well-formed) state
returns the identical instance — both the (n+1)-st vs (m+1)-st call, and
in particular two consecutive calls — and after one
`clear_chat_agent_cache`, the next `get_chat_agent` call constructs a new
instance (the construction counter grows by one) distinct from the
previously cached one. -/
theorem get_chat_agent_singleton_cache_clear
    (s : AgentCacheState) (hWF : s.WF) (n m : Nat) :
    (runGets n s).1 = (runGets m s).1 ∧
    (get_chat_agent ((get_chat_agent s).2)).1 = (get_chat_agent s).1 ∧
    (get_chat_agent (clear_chat_agent_cache (get_chat_agent s).2)).1
      ≠ (get_chat_agent s).1 ∧
    (get_chat_agent (clear_chat_agent_cache (get_chat_agent s).2)).2.nextId
      = (get_chat_agent s).2.nextId + 1 := by
  obtain ⟨c, k⟩ := s
  refine ⟨by rw [runGets_eq_get, runGets_eq_get], ?_, ?_, ?_⟩
  · rcases c with _ | a <;> rfl
  · rcases c with _ | a
    · simp [get_chat_agent, clear_chat_agent_cache]
    · simp_all [get_chat_agent, clear_chat_agent_cache, AgentCacheState.WF]
      omega
  · rcases c with _ | a <;> rfl

/-- Witness for `get_chat_agent_singleton_cache_clear`, at the
process-start state, comparing the third call against the first. -/
theorem get_chat_agent_singleton_cache_clear_witness :
    (runGets 2 initialAgentCacheState).1 = (runGets 0 initialAgentCacheState).1 ∧
    (get_chat_agent ((get_chat_agent initialAgentCacheState).2)).1
      = (get_chat_agent initialAgentCacheState).1 ∧
    (get_chat_agent (clear_chat_agent_cache
        (get_chat_agent initialAgentCacheState).2)).1
      ≠ (get_chat_agent initialAgentCacheState).1 ∧
    (get_chat_agent (clear_chat_agent_cache
        (get_chat_agent initialAgentCacheState).2)).2.nextId
      = (get_chat_agent initialAgentCacheState).2.nextId + 1 :=
  get_chat_agent_singleton_cache_clear initialAgentCacheState trivial 2 0

/-- Claim C7: under any interleaving of concurrent request-handling tasks,
each performing atomic (GIL-serialised) `get_chat_agent` calls from the
process-start state, at most one `ChatAgent` is ever constructed, and
every task receives that same single instance.  The atomicity of each
call is the modelling of CPython's GIL-guarded `lru_cache` lookup; no
explicit lock appears in the state. -/
theorem runSchedule_at_most_one_construction (sched : List Nat) :
    (runSchedule sched initialAgentCacheState).2.nextId ≤ 1 ∧
    ∀ p ∈ (runSchedule sched initialAgentCacheState).1, p.2 = 0 := by
  cases sched with
  | nil => exact ⟨by decide, by intro p hp; simp [runSchedule] at hp⟩
  | cons t ts =>
    have hrun : runSchedule (t :: ts) initialAgentCacheState
        = ((t, 0) :: ts.map (fun x => (x, 0)), ⟨some 0, 1⟩) := by
      simp [runSchedule, initialAgentCacheState, get_chat_agent,
        runSchedule_cached]
    rw [hrun]
    refine ⟨Nat.le_refl 1, ?_⟩
    intro p hp
    rcases List.mem_cons.mp hp with h | h
    · rw [h]
    · rcases List.mem_map.mp h with ⟨x, _, hxe⟩
      rw [← hxe]

/-- Witness for `runSchedule_at_most_one_construction`: three calls by two
interleaved tasks construct at most one instance, and task 1's call
received instance 0. -/
theorem runSchedule_at_most_one_construction_witness :
    (runSchedule [0, 1, 0] initialAgentCacheState).2.nextId ≤ 1 ∧
    ((1, 0) : Nat × Nat).2 = 0 :=
  ⟨(runSchedule_at_most_one_construction [0, 1, 0]).1,
   (runSchedule_at_most_one_construction [0, 1, 0]).2 (1, 0) (by decide)⟩

/-- Claim C2: `POST /api/chat` accepts `{message, conversation_id?,
context?}` and returns a body with exactly the fields `response`,
`conversation_id`, `timestamp` and `metadata`; the returned
`conversation_id` is the freshly generated id when the request supplied
none and the supplied id otherwise. -/
theorem chatEndpoint_contract (freshId now : String)
    (agentReply : String → String) (req : ChatRequest) :
    ((chatEndpoint freshId now agentReply req).toJson).keys
      = ["response", "conversation_id", "timestamp", "metadata"] ∧
    (chatEndpoint freshId now agentReply req).conversation_id
      = req.conversation_id.getD freshId ∧
    (req.conversation_id = none →
      (chatEndpoint freshId now agentReply req).conversation_id = freshId) ∧
    (∀ cid, req.conversation_id = some cid →
      (chatEndpoint freshId now agentReply req).conversation_id = cid) := by
  refine ⟨rfl, rfl, fun h => ?_, fun cid h => ?_⟩ <;> simp [chatEndpoint, h]

/-- Witness for `chatEndpoint_contract`: a request without a conversation
id receives the generated one; a request with id "abc123" gets it back. -/
theorem chatEndpoint_contract_witness :
    (chatEndpoint "generated-uuid" "2024-01-01T12:00:00.000Z"
        (fun _ => "hello") ⟨"hi", none, none⟩).conversation_id
      = "generated-uuid" ∧
    (chatEndpoint "generated-uuid" "2024-01-01T12:00:00.000Z"
        (fun _ => "hello") ⟨"hi", some "abc123", none⟩).conversation_id
      = "abc123" :=
  ⟨(chatEndpoint_contract "generated-uuid" "2024-01-01T12:00:00.000Z"
      (fun _ => "hello") ⟨"hi", none, none⟩).2.2.1 rfl,
   (chatEndpoint_contract "generated-uuid" "2024-01-01T12:00:00.000Z"
      (fun _ => "hello") ⟨"hi", some "abc123", none⟩).2.2.2 "abc123" rfl⟩

/-- Claim C3: for every non-empty project name the scaffolding script
produces exactly the fixed file tree `projectFiles name` — which contains
`src/<name>/main.py`, `tests/test_dummy.py`, `.gitignore` and
`pyproject.toml` — and with no argument it prints the usage message and
exits with the non-zero status 1. -/
theorem create_python_project_contract (name : String) (h : name ≠ "") :
    create_python_project (some name)
      = ScaffoldResult.created (projectFiles name) ∧
    ("src/" ++ name ++ "/main.py") ∈ projectFiles name ∧
    "tests/test_dummy.py" ∈ projectFiles name ∧
    ".gitignore" ∈ projectFiles name ∧
    "pyproject.toml" ∈ projectFiles name ∧
    create_python_project none
      = ScaffoldResult.usageError scaffoldUsageMessage 1 ∧
    (create_python_project none).exitStatus ≠ 0 := by
  refine ⟨by simp [create_python_project, h], ?_, ?_, ?_, ?_, rfl, by decide⟩
    <;> simp [projectFiles]

/-- Witness for `create_python_project_contract` at the project name
"myapp". -/
theorem create_python_project_contract_witness :
    create_python_project (some "myapp")
      = ScaffoldResult.created (projectFiles "myapp") ∧
    ("src/" ++ "myapp" ++ "/main.py") ∈ projectFiles "myapp" ∧
    "tests/test_dummy.py" ∈ projectFiles "myapp" ∧
    ".gitignore" ∈ projectFiles "myapp" ∧
    "pyproject.toml" ∈ projectFiles "myapp" ∧
    create_python_project none
      = ScaffoldResult.usageError scaffoldUsageMessage 1 ∧
    (create_python_project none).exitStatus ≠ 0 :=
  create_python_project_contract "myapp" (by decide)

/-- Claim C4, counterexample: `init-db.sh` is not idempotent.  From a
fresh devcontainer state (a populated `.env`, no revision files yet), the
first run creates one alembic revision and a second run after the
successful first creates another — a duplicate "Initial migration" —
because `alembic revision --autogenerate` is invoked unconditionally. -/
theorem initDbScript_second_run_duplicates_migration :
    (initDbScript
        ⟨some "OPENAI_API_KEY=sk-test", 0, false, false, false⟩).migrationRevisions
      = 1 ∧
    (initDbScript (initDbScript
        ⟨some "OPENAI_API_KEY=sk-test", 0, false, false, false⟩)).migrationRevisions
      = 2 :=
  ⟨rfl, rfl⟩

/-- Claim C4, amended: the devcontainer setup script is idempotent — a
second run is a no-op on the state and an existing `.env` is left
untouched — but the database initialization script is not: every run
unconditionally generates a fresh alembic revision, so a second run adds
a duplicate migration (revision count grows by two over two runs) while
the rest of its effects are idempotent. -/
theorem devcontainer_scripts_idempotency_amended (s : DevEnvState) :
    (setupScript s).1.env = s.env ∧
    setupScript (setupScript s).1 = setupScript s ∧
    initDbScript (initDbScript s)
      = { initDbScript s with
          migrationRevisions := s.migrationRevisions + 2 } :=
  ⟨rfl, rfl, rfl⟩

/-- Claim C9: the setup script's `.env` existence check never creates or
modifies `.env`.  In every state the `.env` content is preserved; in the
absent branch only the message claiming the file was created is printed
and the filesystem still has no `.env`; in the present branch the content
is unchanged. -/
theorem setupScript_env_check_frame (s : DevEnvState) :
    (setupScript s).1.env = s.env ∧
    (s.env = none →
      (setupScript s).2 = envCreatedMessage ∧ (setupScript s).1.env = none) ∧
    (∀ c, s.env = some c →
      (setupScript s).2 = envExistsMessage ∧
        (setupScript s).1.env = some c) := by
  refine ⟨rfl, fun h => ?_, fun c h => ?_⟩ <;> simp [setupScript, h]

/-- Witness for `setupScript_env_check_frame`: one run without `.env`, one
run with an existing `.env` whose content survives. -/
theorem setupScript_env_check_frame_witness :
    ((setupScript ⟨none, 0, false, false, false⟩).2 = envCreatedMessage ∧
      (setupScript ⟨none, 0, false, false, false⟩).1.env = none) ∧
    ((setupScript ⟨some "LOG_LEVEL=INFO", 0, false, false, false⟩).2
        = envExistsMessage ∧
      (setupScript ⟨some "LOG_LEVEL=INFO", 0, false, false, false⟩).1.env
        = some "LOG_LEVEL=INFO") :=
  ⟨(setupScript_env_check_frame ⟨none, 0, false, false, false⟩).2.1 rfl,
   (setupScript_env_check_frame
      ⟨some "LOG_LEVEL=INFO", 0, false, false, false⟩).2.2 "LOG_LEVEL=INFO" rfl⟩

/-- Claim C5: every frame the WebSocket chat endpoint emits is a JSON
object with exactly the fields `status` and `response`, and the client's
`ws.onmessage` treats `status == 'success'` as the success case and every
other status value as an error frame. -/
theorem ws_frame_contract (agent : String → Except String String)
    (msg : String) (f : WsFrame) :
    ((wsServerFrame agent msg).toJson).keys = ["status", "response"] ∧
    ((ws_onmessage f).isSuccess = true ↔ f.status = "success") := by
  refine ⟨rfl, ?_⟩
  by_cases h : f.status = "success" <;>
    simp [ws_onmessage, ClientAction.isSuccess, h]

/-- Claim C6: rate limiting of outbound LLM calls is performed entirely by
the third-party client option — the token-bucket `InMemoryRateLimiter`
configured with 10 requests per second and bucket size 10, handed to the
`ChatOpenAI` constructor — while the repository's own request path
(`generate_response`) performs exactly one ungated client invocation and
implements no limiting of its own. -/
theorem rate_limiting_delegated_to_client_config :
    chatAgentLLMConfig.rate_limiter = some chatAgentRateLimiter ∧
    chatAgentRateLimiter.requests_per_second = 10 ∧
    chatAgentRateLimiter.max_bucket_size = 10 ∧
    chatAgentRateLimiter.check_every_n_seconds = 1 / 10 ∧
    ∀ o : LlmOutcome, (generate_response o).llmCalls = 1 :=
  ⟨rfl, rfl, rfl, rfl, fun o => by cases o <;> rfl⟩

/-- Claim C8: an exception from the LLM client is logged by
`_generate_response` and converted at the shallowest layer into an HTTP
500 response and a WebSocket error frame (one the client handles as the
error case); the repository performs no retry — the client is invoked
exactly once — and retries exist only as the `max_retries = 2`
configuration option passed to the third-party client. -/
theorem error_handling_shallow (o : LlmOutcome) (e : String)
    (he : o = LlmOutcome.err e) :
    (generate_response o).llmCalls = 1 ∧
    (generate_response o).logs = ["LLM呼び出しエラー: " ++ e] ∧
    (httpChatLayer o).1 = 500 ∧
    (wsChatLayer o).status ≠ "success" ∧
    (ws_onmessage (wsChatLayer o)).isSuccess = false ∧
    chatAgentLLMConfig.max_retries = 2 := by
  subst he
  refine ⟨rfl, rfl, rfl, ?_, rfl, rfl⟩
  intro hc
  simp [wsChatLayer, generate_response] at hc

/-- Witness for `error_handling_shallow` at a concrete client exception. -/
theorem error_handling_shallow_witness :
    (generate_response (LlmOutcome.err "APIError")).llmCalls = 1 ∧
    (generate_response (LlmOutcome.err "APIError")).logs
      = ["LLM呼び出しエラー: " ++ "APIError"] ∧
    (httpChatLayer (LlmOutcome.err "APIError")).1 = 500 ∧
    (wsChatLayer (LlmOutcome.err "APIError")).status ≠ "success" ∧
    (ws_onmessage (wsChatLayer (LlmOutcome.err "APIError"))).isSuccess = false ∧
    chatAgentLLMConfig.max_retries = 2 :=
  error_handling_shallow (LlmOutcome.err "APIError") "APIError" rfl

/-- Claim C10: the chat client's send operation trims the input; when the
trimmed text is empty it sends nothing and leaves the whole UI state — in
particular the input field — unchanged; when it is non-empty it sends
exactly one JSON object with the single field `message` holding the
trimmed text, records the user message, and clears the input field. -/
theorem sendMessage_contract (st : ChatUiState) :
    (jsTrim st.inputValue = "" → sendMessage st = st) ∧
    (jsTrim st.inputValue ≠ "" →
      (sendMessage st).sentFrames
        = st.sentFrames
            ++ [Json.obj [("message", Json.str (jsTrim st.inputValue))]] ∧
      (sendMessage st).inputValue = "" ∧
      (sendMessage st).userMessages
        = st.userMessages ++ [jsTrim st.inputValue]) := by
  constructor <;> intro h <;> simp [sendMessage, h]

/-- Witness for `sendMessage_contract`: the input "  hello  " is trimmed,
sent as the one-field object and cleared; the whitespace-only input
" \t " sends nothing and is left untouched. -/
theorem sendMessage_contract_witness :
    ((sendMessage ⟨"  hello  ", [], [], false⟩).sentFrames
        = [] ++ [Json.obj [("message", Json.str (jsTrim "  hello  "))]] ∧
      (sendMessage ⟨"  hello  ", [], [], false⟩).inputValue = "" ∧
      (sendMessage ⟨"  hello  ", [], [], false⟩).userMessages
        = [] ++ [jsTrim "  hello  "]) ∧
    sendMessage ⟨" \t ", [], [], false⟩ = ⟨" \t ", [], [], false⟩ :=
  ⟨(sendMessage_contract ⟨"  hello  ", [], [], false⟩).2 (by decide),
   (sendMessage_contract ⟨" \t ", [], [], false⟩).1 (by decide)⟩
